import Mathlib

/-!
Verification development for the batch crawler driver
(`src/api/python_scripts/excel_batch_processor.py`).

Strings are modelled as lists of characters (`Str`), time in abstract
units, and the remote service and the file system as explicit
environments and operation traces.  Each definition is a shallow
embedding of the Python function named in its doc comment.
-/

namespace Crawler

/-- Character strings, modelled as lists of characters. -/
abbrev Str := List Char

/-- Whitespace recognised by Python `str.strip()`, restricted to the ASCII
range (non-ASCII Unicode whitespace is irrelevant to the properties proved
here). -/
def isWs (c : Char) : Bool :=
  c == ' ' || c == '\t' || c == '\n' || c == '\r' || c == '\x0b' || c == '\x0c'

/-- Removal of leading whitespace, one half of Python `str.strip()`. -/
def dropLeading : Str → Str
  | [] => []
  | c :: cs => if isWs c then dropLeading cs else c :: cs

/-- Python `str.strip()`: drop leading whitespace, then drop trailing
whitespace by reversing, dropping leading whitespace, and reversing back. -/
def pyStrip (l : Str) : Str :=
  (dropLeading ((dropLeading l).reverse)).reverse

/-- ExcelBatchProcessor.fix_url_format (lines 204-233).  The guarded calls
`original_url.replace(p, q, 1)` rewrite the first occurrence of `p`; under
the `startswith(p)` guard that occurrence is at position 0, so each rewrite
equals replacing the length-of-`p` prefix by `q`.  The Python early returns
for an empty or whitespace-only argument both yield the stripped value, as
does the `if o = []` branch here. -/
def fixUrlFormat (url : Str) : Str :=
  let o := pyStrip url
  if o = [] then o
  else if "https:/".data.isPrefixOf o && !("https://".data.isPrefixOf o) then
    "https://".data ++ o.drop 7
  else if "http:/".data.isPrefixOf o && !("http://".data.isPrefixOf o) then
    "http://".data ++ o.drop 6
  else if "https/".data.isPrefixOf o && !("https://".data.isPrefixOf o) then
    "https://".data ++ o.drop 6
  else if "http/".data.isPrefixOf o && !("http://".data.isPrefixOf o) then
    "http://".data ++ o.drop 5
  else o

/-- Characters admitted in a URL scheme by `urllib.parse` (letters, digits,
and the characters `+`, `-`, `.`). -/
def isSchemeChar (c : Char) : Bool :=
  c.isAlpha || c.isDigit || c == '+' || c == '-' || c == '.'

/-- Split a string at its first colon, returning the parts before and after
it, or `none` when there is no colon. -/
def splitColon : Str → Option (Str × Str)
  | [] => none
  | c :: cs =>
    if c == ':' then some ([], cs)
    else
      match splitColon cs with
      | none => none
      | some (a, b) => some (c :: a, b)

/-- Scheme extraction of `urllib.parse.urlsplit`: a scheme is recognised
when a colon occurs at some position `i > 0`, the first character is an
ASCII letter, and every character before the colon is a scheme character;
the scheme is lower-cased and the remainder follows the colon.  Otherwise
the whole input is the remainder. -/
def splitScheme (u : Str) : Str × Str :=
  match splitColon u with
  | some (pre, post) =>
    match pre with
    | [] => ([], u)
    | c :: _ =>
      if c.isAlpha && pre.all isSchemeChar then (pre.map Char.toLower, post)
      else ([], u)
  | none => ([], u)

/-- Netloc extraction of `urllib.parse.urlsplit`: when the post-scheme part
starts with `//`, the netloc is everything after the two slashes up to the
first `/`, `?` or `#`; otherwise there is no netloc. -/
def netlocOf (rest : Str) : Option Str :=
  if "//".data.isPrefixOf rest then
    some ((rest.drop 2).takeWhile (fun c => !(c == '/' || c == '?' || c == '#')))
  else none

/-- Bracket sanity check of `urllib.parse.urlsplit`: a netloc containing
`[` without `]`, or `]` without `[`, raises `ValueError`. -/
def bracketsMismatch (netloc : Str) : Bool :=
  (netloc.contains '[' && !(netloc.contains ']')) ||
  (netloc.contains ']' && !(netloc.contains '['))

/-- ExcelBatchProcessor.validate_url (lines 235-249): strip, reject the
empty string, parse with `urlparse` (a raised `ValueError` is caught and
yields `False`), and require both a non-empty scheme and a non-empty
netloc. -/
def validateUrl (url : Str) : Bool :=
  let u := pyStrip url
  if u.isEmpty then false
  else
    let sr := splitScheme u
    match netlocOf sr.2 with
    | none => false
    | some netloc =>
      if bracketsMismatch netloc then false
      else !sr.1.isEmpty && !netloc.isEmpty

/-- Failure record appended by FailureReport.add_failure (lines 43-58).
The timestamp column holds `'%Y-%m-%d %H:%M:%S'` strings, whose
lexicographic order agrees with chronological order; it is modelled as a
number. -/
structure FailRec where
  titleLink : Str
  title : Str
  reason : Str
  ts : Nat
  src : Str
deriving DecidableEq

/-- File-system operations observable in the embedding. -/
inductive FsOp where
  | writeFile (path : Str)
  | rename (src dst : Str)
deriving DecidableEq

/-- State of the global summary file before a merge: absent, present but
unreadable by `pd.read_excel`, or a parsed table. -/
inductive SummaryFile where
  | missing
  | unparseable
  | table (rows : List FailRec)
deriving DecidableEq

/-- Rows the code obtains from an existing summary file: a missing or
unparseable file is treated as an empty table (lines 83-93). -/
def SummaryFile.rows : SummaryFile → List FailRec
  | .missing => []
  | .unparseable => []
  | .table rs => rs

/-- Comparison used by `sort_values('失败时间', ascending=False)`:
earlier rows of the sorted output have the larger timestamp. -/
def tsGe (a b : FailRec) : Bool := decide (b.ts ≤ a.ts)

/-- Sorting of the combined table, descending by timestamp (line 105).
pandas leaves the order of equal keys unspecified; the merge sort here is
one admissible ordering, and the properties proved are permutation
invariant. -/
def sortByTsDesc (l : List FailRec) : List FailRec := l.mergeSort tsGe

/-- Fixed location of the cross-run summary (line 569; the output
directory prefix is common to all paths and omitted). -/
def summaryPath : Str := "failure_summary.xlsx".data

/-- FailureReport.append_to_global_summary (lines 75-114): skip when the
run produced no failures; otherwise read the existing table (empty for a
missing or unparseable file), concatenate the new records, sort descending
by timestamp, and write the result back with a single direct
`to_excel(global_summary_path)` call.  Returns the success flag, the file
state after the call, and the file operations performed. -/
def appendToGlobalSummary (path : Str) (file : SummaryFile)
    (failures : List FailRec) : Bool × SummaryFile × List FsOp :=
  if failures.isEmpty then (true, file, [])
  else
    let combined := file.rows ++ failures
    let sorted := sortByTsDesc combined
    (true, .table sorted, [FsOp.writeFile path])

/-- Remote task states reported by the status endpoint. -/
inductive TaskStatus where
  | pending
  | processing
  | completed
  | failed
deriving DecidableEq

/-- Result of one status poll as seen by wait_for_task_completion:
an HTTP 200 with a recognised status, an HTTP 200 whose body lacks
`success`/a known status, HTTP 404, another HTTP status, or a raised
timeout, connection or other exception. -/
inductive PollResp where
  | ok (status : TaskStatus)
  | okUnknown
  | notFound
  | otherHttp
  | timeoutErr
  | connErr
  | otherExc
deriving DecidableEq

/-- Observable outcome of the polling loop: final result, number of status
requests issued, and total time slept. -/
structure WaitResult where
  success : Bool
  polls : Nat
  slept : Nat
deriving DecidableEq

/-- ExcelBatchProcessor.wait_for_task_completion (lines 285-344).  The
argument list supplies the responses of successive polls; the `Nat`
arguments are the remaining wait budget and the consecutive-transient
retry counter.  Completed returns success; failed and HTTP 404 return
failure at once; pending/processing sleeps 10 and resets the counter; an
unrecognised 200 body or another HTTP status falls through to the bottom
backoff sleep `min(5 * (retry + 1), 30)` without touching the counter; a
timeout, connection or other exception increments the counter, fails once
it reaches 3, and otherwise backs off.  An exhausted budget is the
timeout exit of the `while` loop. -/
def waitLoop : List PollResp → Nat → Nat → WaitResult
  | _, 0, _ => ⟨false, 0, 0⟩
  | [], _, _ => ⟨false, 0, 0⟩
  | r :: rest, t + 1, retry =>
    match r with
    | .ok .completed => ⟨true, 1, 0⟩
    | .ok .failed => ⟨false, 1, 0⟩
    | .ok .pending =>
      let w := waitLoop rest (t + 1 - 10) 0
      ⟨w.success, w.polls + 1, w.slept + 10⟩
    | .ok .processing =>
      let w := waitLoop rest (t + 1 - 10) 0
      ⟨w.success, w.polls + 1, w.slept + 10⟩
    | .notFound => ⟨false, 1, 0⟩
    | .okUnknown =>
      let slp := min (5 * (retry + 1)) 30
      let w := waitLoop rest (t + 1 - slp) retry
      ⟨w.success, w.polls + 1, w.slept + slp⟩
    | .otherHttp =>
      let slp := min (5 * (retry + 1)) 30
      let w := waitLoop rest (t + 1 - slp) retry
      ⟨w.success, w.polls + 1, w.slept + slp⟩
    | .timeoutErr =>
      if retry + 1 ≥ 3 then ⟨false, 1, 0⟩
      else
        let slp := min (5 * (retry + 2)) 30
        let w := waitLoop rest (t + 1 - slp) (retry + 1)
        ⟨w.success, w.polls + 1, w.slept + slp⟩
    | .connErr =>
      if retry + 1 ≥ 3 then ⟨false, 1, 0⟩
      else
        let slp := min (5 * (retry + 2)) 30
        let w := waitLoop rest (t + 1 - slp) (retry + 1)
        ⟨w.success, w.polls + 1, w.slept + slp⟩
    | .otherExc =>
      if retry + 1 ≥ 3 then ⟨false, 1, 0⟩
      else
        let slp := min (5 * (retry + 2)) 30
        let w := waitLoop rest (t + 1 - slp) (retry + 1)
        ⟨w.success, w.polls + 1, w.slept + slp⟩

/-- Entry point of the polling loop with its default 300-unit budget and a
zero transient counter. -/
def waitForTaskCompletion (resps : List PollResp) (maxWait : Nat := 300) :
    WaitResult :=
  waitLoop resps maxWait 0

/-- Result of one download attempt as seen by download_pdf: an HTTP 200
streaming a file of the given size, HTTP 404, another HTTP status, or a
raised timeout, connection or other exception. -/
inductive DlResp where
  | ok (size : Nat)
  | notFound
  | otherHttp
  | timeoutErr
  | connErr
  | otherExc
deriving DecidableEq

/-- Observable outcome of the download loop: final result, number of
attempts issued, the backoff sleeps performed, and how many empty partial
files were deleted. -/
structure DlResult where
  success : Bool
  attempts : Nat
  sleeps : List Nat
  deletes : Nat
deriving DecidableEq

/-- ExcelBatchProcessor.download_pdf (lines 346-393).  The `while
retry_count < max_retries` loop makes one attempt per iteration: a 200
response with a non-empty file succeeds; a 200 response with an empty file
deletes the partial file and falls through to the retry tail; HTTP 404
returns failure at once; every other HTTP status and every exception also
falls through.  The retry tail increments the counter and, when attempts
remain, sleeps `5 * retry_count` before the next attempt; after the third
failed attempt the function returns failure. -/
def dlLoop (resps : List DlResp) (retry : Nat) : DlResult :=
  if retry < 3 then
    match resps with
    | [] => ⟨false, 0, [], 0⟩
    | r :: rest =>
      match r with
      | .ok n =>
        if 0 < n then ⟨true, 1, [], 0⟩
        else
          let k := retry + 1
          if k < 3 then
            let w := dlLoop rest k
            ⟨w.success, w.attempts + 1, 5 * k :: w.sleeps, w.deletes + 1⟩
          else ⟨false, 1, [], 1⟩
      | .notFound => ⟨false, 1, [], 0⟩
      | _ =>
        let k := retry + 1
        if k < 3 then
          let w := dlLoop rest k
          ⟨w.success, w.attempts + 1, 5 * k :: w.sleeps, w.deletes⟩
        else ⟨false, 1, [], 0⟩
  else ⟨false, 0, [], 0⟩

/-- Entry point of the download loop with a zero retry counter. -/
def downloadPdf (resps : List DlResp) : DlResult := dlLoop resps 0

/-- Terminal disposition of one admitted row in process_single_url
(lines 395-432): success, or failure at the submit, poll, or download
step. -/
inductive RowOutcome where
  | ok
  | submitFailed
  | waitFailed
  | downloadFailed
deriving DecidableEq

/-- Remote-service behaviour seen by one worker: whether
create_crawl_task yields a task id, the poll responses, and the download
responses. -/
structure RowEnv where
  submitOk : Bool
  pollResps : List PollResp
  dlResps : List DlResp

/-- ExcelBatchProcessor.process_single_url (lines 395-432): submit, then
poll, then download, stopping at the first failing step. -/
def runRow (e : RowEnv) : RowOutcome :=
  if !e.submitOk then .submitFailed
  else if !(waitForTaskCompletion e.pollResps).success then .waitFailed
  else if (downloadPdf e.dlResps).success then .ok
  else .downloadFailed

/-- Failure reason recorded for each failing step (lines 409, 415, 424). -/
def reasonOf : RowOutcome → Str
  | .ok => []
  | .submitFailed => "创建爬取任务失败".data
  | .waitFailed => "任务超时或执行失败".data
  | .downloadFailed => "PDF下载失败".data

/-- Input row: the `'标题链接'` cell and, when the column exists and the
cell is not NA, the `'标题'` cell. -/
structure Row where
  url : Str
  title : Option Str

/-- Admitted row as stored in `valid_rows` (lines 498-502): original row
index, fixed URL, and the filename. -/
structure ValidRow where
  index : Nat
  url : Str
  filename : Str
deriving DecidableEq

/-- Reason recorded for a row rejected by validation (line 507). -/
def invalidUrlReason : Str := "无效的URL格式".data

/-- Construction of one failure record: add_failure stores the link, the
title, the reason, the current time, and the source workbook name. -/
def mkFailRec (excelName : Str) (now : Nat) (link title reason : Str) :
    FailRec :=
  ⟨link, title, reason, now, excelName⟩

/-- Filename choice of lines 485-488: the stripped title when present,
else the fixed URL. -/
def filenameOf (r : Row) (fixed : Str) : Str :=
  match r.title with
  | some t => pyStrip t
  | none => fixed

/-- Validation pass of process_excel_file (lines 477-507): each row's URL
is stripped, fixed, and validated; admitted rows are collected with their
index, rejected rows become failure records with the invalid-URL
reason. -/
def filterPhase (excelName : Str) (now : Nat) : List Row → Nat →
    List ValidRow × List FailRec
  | [], _ => ([], [])
  | r :: rs, i =>
    let originalUrl := pyStrip r.url
    let fixed := fixUrlFormat originalUrl
    let fname := filenameOf r fixed
    let rec' := filterPhase excelName now rs (i + 1)
    if validateUrl fixed then (⟨i, fixed, fname⟩ :: rec'.1, rec'.2)
    else (rec'.1, mkFailRec excelName now originalUrl fname invalidUrlReason :: rec'.2)

/-- Error message of the early return when no row passes validation
(line 512). -/
def noValidUrlMsg : Str := "没有找到有效的URL".data

/-- Error message appended when zip creation fails (line 600). -/
def zipFailMsg : Str := "ZIP文件创建失败".data

/-- Error message appended when there is nothing to bundle (line 602). -/
def nothingToBundleMsg : Str := "没有成功的PDF文件或失败报告可打包".data

/-- Result of the bundling step. -/
structure BundleOut where
  success : Bool
  zipPath : Option Str
  errors : List Str
  ops : List FsOp
deriving DecidableEq

/-- Bundling step of process_excel_file (lines 576-602): when there is at
least one PDF or a failure report, create the archive (its creation may
fail, in which case an error is recorded); otherwise skip archive creation
entirely and record the nothing-to-bundle error.  The batch succeeds
exactly when the archive was created. -/
def bundlePhase (pdfFiles : List Str) (reportPath : Option Str)
    (zipOk : Bool) (zipPath : Str) : BundleOut :=
  if !pdfFiles.isEmpty || !reportPath.isNone then
    if zipOk then ⟨true, some zipPath, [], [FsOp.writeFile zipPath]⟩
    else ⟨false, none, [zipFailMsg], []⟩
  else ⟨false, none, [nothingToBundleMsg], []⟩

/-- Environment of one batch run: the remote behaviour seen by the worker
of each admitted row (by position), the state of the global summary file,
and whether archive creation succeeds. -/
structure BatchEnv where
  rowEnv : Nat → RowEnv
  summaryFile : SummaryFile
  zipOk : Bool

/-- Counter update of the result-collection loop (lines 534-553): one
completed or failed increment per collected outcome. -/
def countersOf (outcomes : List Bool) : Nat × Nat :=
  outcomes.foldl
    (fun cf s => if s then (cf.1 + 1, cf.2) else (cf.1, cf.2 + 1)) (0, 0)

/-- Returned dictionary of process_excel_file together with the
observables of the run used by the theorems below: the admitted rows, the
failure records of the validation pass and of the workers, the URLs
submitted to the remote service, the per-row outcomes, the file
operations performed, and the final state of the global summary file. -/
structure BatchOut where
  success : Bool
  totalTasks : Nat
  completedTasks : Nat
  failedTasks : Nat
  zipPath : Option Str
  errors : List Str
  validRows : List ValidRow
  valFailures : List FailRec
  workerFailures : List FailRec
  submitted : List Str
  outcomes : List Bool
  ops : List FsOp
  summaryAfter : SummaryFile

/-- ExcelBatchProcessor.process_excel_file (lines 461-610).  Validation
failures are recorded first; when no row is admitted the function returns
early (lines 511-513) before any report, summary, or archive file is
written.  Otherwise every admitted row is dispatched to a worker, the
counters are accumulated from the collected outcomes, the failure report
and global summary are written when any failure was recorded (lines
555-574; their write errors are environmental and modelled as succeeding),
and the bundling step closes the run.  Timestamps of all records of the
run carry the run time `now` and the workbook name `excelName`. -/
def processExcelFile (excelName : Str) (rows : List Row) (env : BatchEnv)
    (now : Nat) : BatchOut :=
  let fp := filterPhase excelName now rows 0
  let validRows := fp.1
  let valFails := fp.2
  let total := validRows.length
  if validRows.isEmpty then
    { success := false, totalTasks := total, completedTasks := 0,
      failedTasks := 0, zipPath := none, errors := [noValidUrlMsg],
      validRows := validRows, valFailures := valFails, workerFailures := [],
      submitted := [], outcomes := [], ops := [],
      summaryAfter := env.summaryFile }
  else
    let paired := validRows.enum.map (fun p => (p.2, runRow (env.rowEnv p.1)))
    let outcomes := paired.map (fun p => decide (p.2 = RowOutcome.ok))
    let counters := countersOf outcomes
    let pdfFiles := paired.filterMap (fun p =>
      if p.2 = RowOutcome.ok then some (p.1.filename ++ ".pdf".data) else none)
    let workerFails := paired.filterMap (fun p =>
      if p.2 = RowOutcome.ok then none
      else some (mkFailRec excelName now p.1.url p.1.filename (reasonOf p.2)))
    let workerErrors := paired.filterMap (fun p =>
      if p.2 = RowOutcome.ok then none
      else some (p.1.filename ++ ": ".data ++ reasonOf p.2))
    let allFailures := valFails ++ workerFails
    let reportPath : Option Str :=
      if allFailures.isEmpty then none
      else some (excelName ++ "_failure_report.xlsx".data)
    let reportOps : List FsOp :=
      match reportPath with
      | none => []
      | some p => [FsOp.writeFile p]
    let summary :=
      match reportPath with
      | none => (true, env.summaryFile, ([] : List FsOp))
      | some _ => appendToGlobalSummary summaryPath env.summaryFile allFailures
    let bo := bundlePhase pdfFiles reportPath env.zipOk
      (excelName ++ ".zip".data)
    { success := bo.success, totalTasks := total,
      completedTasks := counters.1, failedTasks := counters.2,
      zipPath := bo.zipPath, errors := workerErrors ++ bo.errors,
      validRows := validRows, valFailures := valFails,
      workerFailures := workerFails,
      submitted := validRows.map (fun v => v.url),
      outcomes := outcomes, ops := reportOps ++ summary.2.2 ++ bo.ops,
      summaryAfter := summary.2.1 }

/-- Strings whose first character, if any, is not whitespace. -/
def noLeadWs : Str → Bool
  | [] => true
  | c :: _ => !isWs c

/-- Guard of the URL fixer: the stripped URL starts with one of the four
malformed scheme spellings and is not already in canonical form. -/
def hasMalformedScheme (o : Str) : Bool :=
  ("https:/".data.isPrefixOf o && !("https://".data.isPrefixOf o)) ||
  ("http:/".data.isPrefixOf o && !("http://".data.isPrefixOf o)) ||
  ("https/".data.isPrefixOf o && !("https://".data.isPrefixOf o)) ||
  ("http/".data.isPrefixOf o && !("http://".data.isPrefixOf o))

/-- Download responses after which download_pdf moves on to another
attempt: everything except a success and except HTTP 404. -/
def retriable : DlResp → Bool
  | .ok n => decide (n = 0)
  | .notFound => false
  | _ => true

/-- Download responses that make the attempt succeed: an HTTP 200 whose
streamed file is non-empty. -/
def goodResp : DlResp → Bool
  | .ok n => decide (0 < n)
  | _ => false

/-- Number of partial-file deletions one download response causes: one for
an HTTP 200 that produced an empty file, none otherwise. -/
def delCount (r : DlResp) : Nat := if r = DlResp.ok 0 then 1 else 0

/-- Table ordered descending by timestamp. -/
def sortedDesc (l : List FailRec) : Prop :=
  l.Pairwise (fun a b => b.ts ≤ a.ts)

/-- Modelled from the spec: an atomic rewrite of `path` (the
write-to-temp-then-rename of section 4.4, which has no counterpart in the
source) writes a temporary file and renames it onto `path`. -/
def atomicReplace (path : Str) (ops : List FsOp) : Prop :=
  ∃ tmp, tmp ≠ path ∧ ops = [FsOp.writeFile tmp, FsOp.rename tmp path]

/-- Concrete failure record with timestamp 0. -/
def rec0 : FailRec := ⟨[], [], [], 0, []⟩

/-- Concrete failure record with timestamp 1. -/
def recB : FailRec := ⟨[], [], [], 1, []⟩

/-! Helper lemmas about stripping. -/

theorem dropLeading_of_noLeadWs {l : Str} (h : noLeadWs l = true) :
    dropLeading l = l := by
  cases l with
  | nil => rfl
  | cons c cs =>
    simp only [noLeadWs, Bool.not_eq_true'] at h
    simp [dropLeading, h]

theorem noLeadWs_dropLeading (l : Str) : noLeadWs (dropLeading l) = true := by
  induction l with
  | nil => rfl
  | cons c cs ih =>
    by_cases h : isWs c = true
    · simpa [dropLeading, h] using ih
    · simp only [Bool.not_eq_true] at h
      simp [dropLeading, h, noLeadWs]

theorem dropLeading_suffix (l : Str) : dropLeading l <:+ l := by
  induction l with
  | nil => exact List.suffix_refl _
  | cons c cs ih =>
    by_cases h : isWs c = true
    · simpa [dropLeading, h] using ih.trans (List.suffix_cons c cs)
    · simp only [Bool.not_eq_true] at h
      simp [dropLeading, h]

theorem noLeadWs_append_left {a b : Str} (h : noLeadWs (a ++ b) = true)
    (ha : a ≠ []) : noLeadWs a = true := by
  cases a with
  | nil => exact absurd rfl ha
  | cons c cs => simpa [noLeadWs] using h

theorem noLeadWs_rev_of_suffix {y z : Str} (h : y <:+ z)
    (hz : noLeadWs z.reverse = true) : noLeadWs y.reverse = true := by
  obtain ⟨w, rfl⟩ := h
  rw [List.reverse_append] at hz
  by_cases hy : y.reverse = []
  · rw [hy]; rfl
  · exact noLeadWs_append_left hz hy

theorem pyStrip_eq_self {l : Str} (h1 : noLeadWs l = true)
    (h2 : noLeadWs l.reverse = true) : pyStrip l = l := by
  unfold pyStrip
  rw [dropLeading_of_noLeadWs h1, dropLeading_of_noLeadWs h2,
    List.reverse_reverse]

theorem noLeadWs_pyStrip (l : Str) : noLeadWs (pyStrip l) = true := by
  have hz : noLeadWs ((dropLeading l).reverse).reverse = true := by
    rw [List.reverse_reverse]; exact noLeadWs_dropLeading l
  exact noLeadWs_rev_of_suffix (dropLeading_suffix _) hz

theorem noLeadWs_rev_pyStrip (l : Str) :
    noLeadWs (pyStrip l).reverse = true := by
  unfold pyStrip
  rw [List.reverse_reverse]
  exact noLeadWs_dropLeading _

theorem pyStrip_idem (l : Str) : pyStrip (pyStrip l) = pyStrip l :=
  pyStrip_eq_self (noLeadWs_pyStrip l) (noLeadWs_rev_pyStrip l)

theorem isPrefixOf_append_self (p r : Str) :
    p.isPrefixOf (p ++ r) = true := by
  rw [ List.isPrefixOf_iff_prefix]; exact List.prefix_append p r

theorem noLeadWs_rev_append_canon {rest canon : Str}
    (hc : noLeadWs canon.reverse = true)
    (h : noLeadWs rest.reverse = true) :
    noLeadWs (canon ++ rest).reverse = true := by
  rw [List.reverse_append]
  cases hcase : rest.reverse with
  | nil => simpa [hcase]
  | cons c cs =>
    rw [hcase] at h
    simpa [noLeadWs] using h

theorem fixUrlFormat_https_fixed (rest : Str)
    (h : noLeadWs rest.reverse = true) :
    fixUrlFormat ("https://".data ++ rest) = "https://".data ++ rest := by
  have hs : pyStrip ("https://".data ++ rest) = "https://".data ++ rest := by
    apply pyStrip_eq_self
    · rfl
    · exact noLeadWs_rev_append_canon (by rfl) h
  have e1 : "https:/".data.isPrefixOf ("https://".data ++ rest) = true := by
    show "https:/".data.isPrefixOf ("https:/".data ++ ('/' :: rest)) = true
    exact isPrefixOf_append_self _ _
  have e2 : "https://".data.isPrefixOf ("https://".data ++ rest) = true :=
    isPrefixOf_append_self _ _
  have e3 : "http:/".data.isPrefixOf ("https://".data ++ rest) = false := rfl
  have e4 : "https/".data.isPrefixOf ("https://".data ++ rest) = false := rfl
  have e5 : "http/".data.isPrefixOf ("https://".data ++ rest) = false := rfl
  have e0 : ¬ ("https://".data ++ rest = ([] : Str)) := by intro hh; cases hh
  simp only [fixUrlFormat]
  rw [hs, if_neg e0, e1, e2, e3, e4, e5]
  simp

theorem fixUrlFormat_http_fixed (rest : Str)
    (h : noLeadWs rest.reverse = true) :
    fixUrlFormat ("http://".data ++ rest) = "http://".data ++ rest := by
  have hs : pyStrip ("http://".data ++ rest) = "http://".data ++ rest := by
    apply pyStrip_eq_self
    · rfl
    · exact noLeadWs_rev_append_canon (by rfl) h
  have e1 : "https:/".data.isPrefixOf ("http://".data ++ rest) = false := rfl
  have e2 : "http:/".data.isPrefixOf ("http://".data ++ rest) = true := by
    show "http:/".data.isPrefixOf ("http:/".data ++ ('/' :: rest)) = true
    exact isPrefixOf_append_self _ _
  have e3 : "http://".data.isPrefixOf ("http://".data ++ rest) = true :=
    isPrefixOf_append_self _ _
  have e4 : "https/".data.isPrefixOf ("http://".data ++ rest) = false := rfl
  have e5 : "http/".data.isPrefixOf ("http://".data ++ rest) = false := rfl
  have e0 : ¬ ("http://".data ++ rest = ([] : Str)) := by intro hh; cases hh
  simp only [fixUrlFormat]
  rw [hs, if_neg e0, e1, e2, e3, e4, e5]
  simp

theorem fix_url_cases (url : Str) :
    (fixUrlFormat url = pyStrip url
      ∧ fixUrlFormat (pyStrip url) = pyStrip url
      ∧ hasMalformedScheme (pyStrip url) = false)
    ∨ (∃ rest : Str, noLeadWs rest.reverse = true ∧
        (fixUrlFormat url = "https://".data ++ rest
          ∨ fixUrlFormat url = "http://".data ++ rest)) := by
  by_cases h0 : pyStrip url = []
  · left
    refine ⟨?_, ?_, ?_⟩
    · simp only [fixUrlFormat]
      rw [if_pos h0, h0]
    · rw [h0]; rfl
    · rw [h0]; rfl
  · by_cases h1 : ("https:/".data.isPrefixOf (pyStrip url)
        && !("https://".data.isPrefixOf (pyStrip url))) = true
    · right
      refine ⟨(pyStrip url).drop 7,
        noLeadWs_rev_of_suffix (List.drop_suffix 7 _)
          (noLeadWs_rev_pyStrip url), Or.inl ?_⟩
      simp only [fixUrlFormat]
      rw [if_neg h0, if_pos h1]
    · by_cases h2 : ("http:/".data.isPrefixOf (pyStrip url)
          && !("http://".data.isPrefixOf (pyStrip url))) = true
      · right
        refine ⟨(pyStrip url).drop 6,
          noLeadWs_rev_of_suffix (List.drop_suffix 6 _)
            (noLeadWs_rev_pyStrip url), Or.inr ?_⟩
        simp only [fixUrlFormat]
        rw [if_neg h0, if_neg h1, if_pos h2]
      · by_cases h3 : ("https/".data.isPrefixOf (pyStrip url)
            && !("https://".data.isPrefixOf (pyStrip url))) = true
        · right
          refine ⟨(pyStrip url).drop 6,
            noLeadWs_rev_of_suffix (List.drop_suffix 6 _)
              (noLeadWs_rev_pyStrip url), Or.inl ?_⟩
          simp only [fixUrlFormat]
          rw [if_neg h0, if_neg h1, if_neg h2, if_pos h3]
        · by_cases h4 : ("http/".data.isPrefixOf (pyStrip url)
              && !("http://".data.isPrefixOf (pyStrip url))) = true
          · right
            refine ⟨(pyStrip url).drop 5,
              noLeadWs_rev_of_suffix (List.drop_suffix 5 _)
                (noLeadWs_rev_pyStrip url), Or.inr ?_⟩
            simp only [fixUrlFormat]
            rw [if_neg h0, if_neg h1, if_neg h2, if_neg h3, if_pos h4]
          · left
            refine ⟨?_, ?_, ?_⟩
            · simp only [fixUrlFormat]
              rw [if_neg h0, if_neg h1, if_neg h2, if_neg h3, if_neg h4]
            · simp only [fixUrlFormat]
              rw [pyStrip_idem url]
              rw [if_neg h0, if_neg h1, if_neg h2, if_neg h3, if_neg h4]
            · rw [Bool.not_eq_true] at h1 h2 h3 h4
              simp [hasMalformedScheme, h1, h2, h3, h4]

/-- C5: fix_url_format applies at most one rewrite (first matching rule)
turning a malformed `http:/`, `https:/`, `http/`, `https/` scheme into the
canonical double-slash form, and it is idempotent on every input. -/
theorem fix_url_idempotent_canonical (url : Str) :
    fixUrlFormat (fixUrlFormat url) = fixUrlFormat url
    ∧ (hasMalformedScheme (pyStrip url) = true →
        ("http://".data.isPrefixOf (fixUrlFormat url)
          || "https://".data.isPrefixOf (fixUrlFormat url)) = true) := by
  rcases fix_url_cases url with ⟨heq1, heq2, hmal⟩ | ⟨rest, hws, hcanon | hcanon⟩
  · constructor
    · rw [heq1]; exact heq2
    · intro hm; rw [hmal] at hm; cases hm
  · constructor
    · rw [hcanon]; exact fixUrlFormat_https_fixed rest hws
    · intro _
      rw [hcanon, isPrefixOf_append_self]
      simp
  · constructor
    · rw [hcanon]; exact fixUrlFormat_http_fixed rest hws
    · intro _
      rw [hcanon, isPrefixOf_append_self]
      simp

/-- Witness for C5 at the concrete malformed input `https:/example.com`. -/
theorem fix_url_idempotent_canonical_witness :
    (fixUrlFormat (fixUrlFormat "https:/example.com".data)
        = fixUrlFormat "https:/example.com".data)
    ∧ ("http://".data.isPrefixOf (fixUrlFormat "https:/example.com".data)
        || "https://".data.isPrefixOf
            (fixUrlFormat "https:/example.com".data)) = true :=
  ⟨(fix_url_idempotent_canonical "https:/example.com".data).1,
   (fix_url_idempotent_canonical "https:/example.com".data).2 (by decide)⟩

/-! Helper lemmas about the outcome counters. -/

theorem countersAux (l : List Bool) (a b : Nat) :
    (l.foldl (fun cf s => if s then (cf.1 + 1, cf.2) else (cf.1, cf.2 + 1)) (a, b)).1
      + (l.foldl (fun cf s => if s then (cf.1 + 1, cf.2) else (cf.1, cf.2 + 1)) (a, b)).2
      = a + b + l.length := by
  induction l generalizing a b with
  | nil => simp
  | cons c cs ih =>
    cases c
    · simpa [List.foldl] using by rw [ih]; omega
    · simpa [List.foldl] using by rw [ih]; omega

theorem countersOf_sum (l : List Bool) :
    (countersOf l).1 + (countersOf l).2 = l.length := by
  simpa using countersAux l 0 0

/-- C1: on return of process_excel_file, each admitted row produced
exactly one outcome (the outcome list has one entry per admitted row),
`totalTasks` is the number of admitted rows, and
`completedTasks + failedTasks = totalTasks`. -/
theorem batch_counters_invariant (excelName : Str) (rows : List Row)
    (env : BatchEnv) (now : Nat) :
    let out := processExcelFile excelName rows env now
    out.completedTasks + out.failedTasks = out.totalTasks
    ∧ out.totalTasks = out.validRows.length
    ∧ out.outcomes.length = out.totalTasks := by
  show (processExcelFile excelName rows env now).completedTasks
      + (processExcelFile excelName rows env now).failedTasks
      = (processExcelFile excelName rows env now).totalTasks
    ∧ (processExcelFile excelName rows env now).totalTasks
      = (processExcelFile excelName rows env now).validRows.length
    ∧ (processExcelFile excelName rows env now).outcomes.length
      = (processExcelFile excelName rows env now).totalTasks
  simp only [processExcelFile]
  by_cases h : (filterPhase excelName now rows 0).1.isEmpty = true
  · have hnil : (filterPhase excelName now rows 0).1 = [] :=
      List.isEmpty_iff.mp h
    rw [if_pos h]
    simp [hnil]
  · rw [if_neg h]
    refine ⟨?_, rfl, ?_⟩
    · rw [countersOf_sum]
      simp
    · simp

/-- C8: when the successful-artifact collection and the failure-report
path are both empty, the bundling step skips archive creation entirely
(no file operation, regardless of whether archive creation would have
succeeded) and yields an unsuccessful result carrying the explicit
nothing-to-bundle error. -/
theorem nothing_to_bundle_skips_archive (zipOk : Bool) (zipPath : Str) :
    bundlePhase [] none zipOk zipPath
      = ⟨false, none, [nothingToBundleMsg], []⟩ := rfl

/-- C4: a status poll answered with HTTP 404 makes the polling loop
return failure at once, from any remaining budget and any transient retry
count: exactly that one poll is issued, no backoff sleep happens, and no
further poll follows; the second conjunct instantiates this at the
loop entry with the default budget. -/
theorem poll_404_terminates (rest : List PollResp) (t retry : Nat) :
    waitLoop (PollResp.notFound :: rest) (t + 1) retry = ⟨false, 1, 0⟩
    ∧ waitForTaskCompletion (PollResp.notFound :: rest) = ⟨false, 1, 0⟩ :=
  ⟨rfl, rfl⟩

/-! Helper lemmas about the download loop. -/

theorem dlLoop_good (r : DlResp) (rest : List DlResp) (k : Nat)
    (hk : k < 3) (hg : goodResp r = true) :
    dlLoop (r :: rest) k = ⟨true, 1, [], 0⟩ := by
  cases r <;> simp [goodResp] at hg
  next n => simp [dlLoop, hk, hg]

theorem dlLoop_notFound (rest : List DlResp) (k : Nat) (hk : k < 3) :
    dlLoop (DlResp.notFound :: rest) k = ⟨false, 1, [], 0⟩ := by
  simp [dlLoop, hk]

theorem dlLoop_step (r : DlResp) (rest : List DlResp) (k : Nat)
    (hk : k + 1 < 3) (hr : retriable r = true) :
    dlLoop (r :: rest) k =
      ⟨(dlLoop rest (k + 1)).success, (dlLoop rest (k + 1)).attempts + 1,
       5 * (k + 1) :: (dlLoop rest (k + 1)).sleeps,
       (dlLoop rest (k + 1)).deletes + delCount r⟩ := by
  have hk3 : k < 3 := by omega
  cases r <;> simp [retriable] at hr <;>
    simp_all [dlLoop, hk, hk3, delCount]

theorem dlLoop_last (r : DlResp) (rest : List DlResp)
    (hr : retriable r = true) :
    dlLoop (r :: rest) 2 = ⟨false, 1, [], delCount r⟩ := by
  cases r <;> simp [retriable] at hr <;>
    simp_all [dlLoop, delCount]

/-- C3 counterexample: after a non-200, non-404 HTTP response the download
is retried rather than terminated — the second attempt succeeds, after a
5-unit backoff sleep — refuting the claim that retries happen only on
timeout or connection errors. -/
theorem download_retries_after_http_error :
    downloadPdf [DlResp.otherHttp, DlResp.ok 1, DlResp.ok 1]
      = ⟨true, 2, [5], 0⟩ := by decide

/-- C3 (amended): download_pdf issues up to 3 attempts with backoff sleeps
of `5 * attempt` time units between them; an attempt ends the loop only on
success (a 200 response with a non-empty file) or on HTTP 404, which fails
immediately; every other outcome — timeout, connection error, other
exception, other HTTP status, or an empty downloaded file — leads to a
retry, an empty file additionally having its partial file deleted; after
the third such attempt the download fails. -/
theorem download_retry_policy (a b c : DlResp) (rest : List DlResp) :
    (goodResp a = true →
      downloadPdf (a :: b :: c :: rest) = ⟨true, 1, [], 0⟩)
    ∧ (a = DlResp.notFound →
      downloadPdf (a :: b :: c :: rest) = ⟨false, 1, [], 0⟩)
    ∧ (retriable a = true → goodResp b = true →
      downloadPdf (a :: b :: c :: rest) = ⟨true, 2, [5], delCount a⟩)
    ∧ (retriable a = true → b = DlResp.notFound →
      downloadPdf (a :: b :: c :: rest) = ⟨false, 2, [5], delCount a⟩)
    ∧ (retriable a = true → retriable b = true → goodResp c = true →
      downloadPdf (a :: b :: c :: rest)
        = ⟨true, 3, [5, 10], delCount a + delCount b⟩)
    ∧ (retriable a = true → retriable b = true → c = DlResp.notFound →
      downloadPdf (a :: b :: c :: rest)
        = ⟨false, 3, [5, 10], delCount a + delCount b⟩)
    ∧ (retriable a = true → retriable b = true → retriable c = true →
      downloadPdf (a :: b :: c :: rest)
        = ⟨false, 3, [5, 10], delCount a + delCount b + delCount c⟩) := by
  refine ⟨?_, ?_, ?_, ?_, ?_, ?_, ?_⟩
  · intro hg
    exact dlLoop_good a (b :: c :: rest) 0 (by omega) hg
  · rintro rfl
    exact dlLoop_notFound (b :: c :: rest) 0 (by omega)
  · intro ha hg
    rw [downloadPdf, dlLoop_step a (b :: c :: rest) 0 (by omega) ha,
      dlLoop_good b (c :: rest) 1 (by omega) hg]
    simp
  · rintro ha rfl
    rw [downloadPdf, dlLoop_step a _ 0 (by omega) ha,
      dlLoop_notFound (c :: rest) 1 (by omega)]
    simp
  · intro ha hb hg
    rw [downloadPdf, dlLoop_step a _ 0 (by omega) ha,
      dlLoop_step b _ 1 (by omega) hb, dlLoop_good c rest 2 (by omega) hg]
    simp [Nat.add_comm]
  · rintro ha hb rfl
    rw [downloadPdf, dlLoop_step a _ 0 (by omega) ha,
      dlLoop_step b _ 1 (by omega) hb, dlLoop_notFound rest 2 (by omega)]
    simp [Nat.add_comm]
  · intro ha hb hc
    rw [downloadPdf, dlLoop_step a _ 0 (by omega) ha,
      dlLoop_step b _ 1 (by omega) hb, dlLoop_last c rest hc]
    simp
    omega

/-- Witness for C3 at a concrete environment: an empty first file, a
timeout, then a successful third attempt, giving 3 attempts, sleeps of 5
then 10, and one deleted partial file. -/
theorem download_retry_policy_witness :
    downloadPdf [DlResp.ok 0, DlResp.timeoutErr, DlResp.ok 7]
      = ⟨true, 3, [5, 10], 1⟩ := by
  have h := (download_retry_policy (DlResp.ok 0) DlResp.timeoutErr
    (DlResp.ok 7) []).2.2.2.2.1 (by decide) (by decide) (by decide)
  simpa using h

/-! Helper lemmas about the validation pass. -/

theorem filterPhase_fst_map_url (excelName : Str) (now : Nat)
    (rows : List Row) (i : Nat) :
    (filterPhase excelName now rows i).1.map (fun v => v.url)
      = (rows.filter (fun r => validateUrl (fixUrlFormat (pyStrip r.url)))).map
          (fun r => fixUrlFormat (pyStrip r.url)) := by
  induction rows generalizing i with
  | nil => rfl
  | cons r rs ih =>
    by_cases h : validateUrl (fixUrlFormat (pyStrip r.url)) = true
    · simp [filterPhase, h, List.filter_cons, ih]
    · simp only [Bool.not_eq_true] at h
      simp [filterPhase, h, List.filter_cons, ih]

theorem filterPhase_snd (excelName : Str) (now : Nat)
    (rows : List Row) (i : Nat) :
    (filterPhase excelName now rows i).2
      = (rows.filter (fun r => !validateUrl (fixUrlFormat (pyStrip r.url)))).map
          (fun r => mkFailRec excelName now (pyStrip r.url)
            (filenameOf r (fixUrlFormat (pyStrip r.url))) invalidUrlReason) := by
  induction rows generalizing i with
  | nil => rfl
  | cons r rs ih =>
    by_cases h : validateUrl (fixUrlFormat (pyStrip r.url)) = true
    · simp [filterPhase, h, List.filter_cons, ih]
    · simp only [Bool.not_eq_true] at h
      simp [filterPhase, h, List.filter_cons, ih]

theorem filterPhase_append (excelName : Str) (now : Nat)
    (xs ys : List Row) (i : Nat) :
    filterPhase excelName now (xs ++ ys) i
      = ((filterPhase excelName now xs i).1
          ++ (filterPhase excelName now ys (i + xs.length)).1,
         (filterPhase excelName now xs i).2
          ++ (filterPhase excelName now ys (i + xs.length)).2) := by
  induction xs generalizing i with
  | nil => simp [filterPhase]
  | cons x xs ih =>
    have harith : i + 1 + xs.length = i + (xs.length + 1) := by omega
    by_cases h : validateUrl (fixUrlFormat (pyStrip x.url)) = true
    · simp [filterPhase, h, ih, harith]
    · simp only [Bool.not_eq_true] at h
      simp [filterPhase, h, ih, harith]

theorem filterPhase_all_invalid (excelName : Str) (now : Nat)
    (ys : List Row) : ∀ j : Nat,
    (∀ r ∈ ys, validateUrl (fixUrlFormat (pyStrip r.url)) = false) →
    (filterPhase excelName now ys j).1 = []
    ∧ (filterPhase excelName now ys j).2.length = ys.length := by
  induction ys with
  | nil => exact fun _ _ => ⟨rfl, rfl⟩
  | cons y ys ih =>
    intro j h
    have hy : validateUrl (fixUrlFormat (pyStrip y.url)) = false :=
      h y (by simp)
    obtain ⟨h1, h2⟩ := ih (j + 1) (fun r hr => h r (by simp [hr]))
    constructor
    · simp [filterPhase, hy, h1]
    · simp [filterPhase, hy, h2]

/-- C6: a row is admitted exactly when `validate(normalize(raw))` holds —
the admitted rows carry precisely the fixed URLs of the rows passing that
test, each rejected row yields one immediate failure record with the
invalid-URL reason, and the URLs submitted to the remote service are
exactly the admitted ones (so a rejected row causes no remote call). -/
theorem admission_requires_valid_url (excelName : Str) (now : Nat)
    (rows : List Row) (env : BatchEnv) :
    (processExcelFile excelName rows env now).validRows.map (fun v => v.url)
      = (rows.filter (fun r => validateUrl (fixUrlFormat (pyStrip r.url)))).map
          (fun r => fixUrlFormat (pyStrip r.url))
    ∧ (processExcelFile excelName rows env now).valFailures
      = (rows.filter (fun r => !validateUrl (fixUrlFormat (pyStrip r.url)))).map
          (fun r => mkFailRec excelName now (pyStrip r.url)
            (filenameOf r (fixUrlFormat (pyStrip r.url))) invalidUrlReason)
    ∧ (processExcelFile excelName rows env now).submitted
      = (processExcelFile excelName rows env now).validRows.map (fun v => v.url)
    ∧ (processExcelFile excelName rows env now).submitted.length
      = (processExcelFile excelName rows env now).totalTasks := by
  simp only [processExcelFile]
  by_cases h : (filterPhase excelName now rows 0).1.isEmpty = true
  · rw [if_pos h]
    have hnil := List.isEmpty_iff.mp h
    have hmap := filterPhase_fst_map_url excelName now rows 0
    rw [hnil] at hmap
    refine ⟨?_, filterPhase_snd excelName now rows 0, by simp [hnil], by simp [hnil]⟩
    simpa [hnil] using hmap
  · rw [if_neg h]
    exact ⟨filterPhase_fst_map_url excelName now rows 0,
      filterPhase_snd excelName now rows 0, rfl, by simp⟩

/-- C9: appending any number of rows that fail URL validation to a batch
changes neither `totalTasks` nor `completedTasks` nor `failedTasks` — the
rejected rows are recorded only as additional validation failure records
— and `totalTasks` stays the number of admitted rows. -/
theorem rejected_rows_not_counted (excelName : Str) (now : Nat)
    (rows junk : List Row) (env : BatchEnv)
    (hjunk : ∀ r ∈ junk, validateUrl (fixUrlFormat (pyStrip r.url)) = false) :
    (processExcelFile excelName (rows ++ junk) env now).totalTasks
      = (processExcelFile excelName rows env now).totalTasks
    ∧ (processExcelFile excelName (rows ++ junk) env now).completedTasks
      = (processExcelFile excelName rows env now).completedTasks
    ∧ (processExcelFile excelName (rows ++ junk) env now).failedTasks
      = (processExcelFile excelName rows env now).failedTasks
    ∧ (processExcelFile excelName (rows ++ junk) env now).totalTasks
      = (processExcelFile excelName (rows ++ junk) env now).validRows.length
    ∧ (processExcelFile excelName (rows ++ junk) env now).valFailures.length
      = (processExcelFile excelName rows env now).valFailures.length
        + junk.length := by
  obtain ⟨hj1, hj2⟩ :=
    filterPhase_all_invalid excelName now junk rows.length hjunk
  have happ := filterPhase_append excelName now rows junk 0
  simp only [Nat.zero_add] at happ
  have hfst : (filterPhase excelName now (rows ++ junk) 0).1
      = (filterPhase excelName now rows 0).1 := by
    rw [happ, hj1, List.append_nil]
  have hsnd : (filterPhase excelName now (rows ++ junk) 0).2
      = (filterPhase excelName now rows 0).2
        ++ (filterPhase excelName now junk rows.length).2 := by
    rw [happ]
  simp only [processExcelFile, hfst, hsnd]
  by_cases h : (filterPhase excelName now rows 0).1.isEmpty = true
  · rw [if_pos h, if_pos h]
    refine ⟨rfl, rfl, rfl, ?_, ?_⟩
    · simp [List.isEmpty_iff.mp h]
    · simp [hj2]
  · rw [if_neg h, if_neg h]
    refine ⟨rfl, rfl, rfl, rfl, ?_⟩
    simp [hj2]

/-- C10: when every row fails URL validation the run returns early:
unsuccessful, with only the no-valid-URLs error, no file operation at all
(so neither the per-batch report nor the global summary is written and no
archive is created), zero totalTasks, no archive path — even though one
in-memory failure record exists per row. -/
theorem all_invalid_early_return (excelName : Str) (now : Nat)
    (rows : List Row) (env : BatchEnv)
    (h : ∀ r ∈ rows, validateUrl (fixUrlFormat (pyStrip r.url)) = false) :
    (processExcelFile excelName rows env now).success = false
    ∧ (processExcelFile excelName rows env now).errors = [noValidUrlMsg]
    ∧ (processExcelFile excelName rows env now).ops = []
    ∧ (processExcelFile excelName rows env now).totalTasks = 0
    ∧ (processExcelFile excelName rows env now).zipPath = none
    ∧ (processExcelFile excelName rows env now).valFailures.length
      = rows.length := by
  obtain ⟨h1, h2⟩ := filterPhase_all_invalid excelName now rows 0 h
  have he : (filterPhase excelName now rows 0).1.isEmpty = true := by
    simp [h1]
  simp only [processExcelFile]
  rw [if_pos he]
  exact ⟨rfl, rfl, rfl, by simp [h1], rfl, h2⟩

/-- Witness for C10 with one concrete schemeless row. -/
theorem all_invalid_early_return_witness :
    (processExcelFile "batch".data [⟨"example.com".data, none⟩]
        ⟨fun _ => ⟨true, [], []⟩, SummaryFile.missing, true⟩ 0).success = false
    ∧ (processExcelFile "batch".data [⟨"example.com".data, none⟩]
        ⟨fun _ => ⟨true, [], []⟩, SummaryFile.missing, true⟩ 0).errors
      = [noValidUrlMsg]
    ∧ (processExcelFile "batch".data [⟨"example.com".data, none⟩]
        ⟨fun _ => ⟨true, [], []⟩, SummaryFile.missing, true⟩ 0).ops = []
    ∧ (processExcelFile "batch".data [⟨"example.com".data, none⟩]
        ⟨fun _ => ⟨true, [], []⟩, SummaryFile.missing, true⟩ 0).totalTasks = 0
    ∧ (processExcelFile "batch".data [⟨"example.com".data, none⟩]
        ⟨fun _ => ⟨true, [], []⟩, SummaryFile.missing, true⟩ 0).zipPath = none
    ∧ (processExcelFile "batch".data [⟨"example.com".data, none⟩]
        ⟨fun _ => ⟨true, [], []⟩, SummaryFile.missing, true⟩ 0).valFailures.length
      = 1 :=
  all_invalid_early_return "batch".data 0 [⟨"example.com".data, none⟩]
    ⟨fun _ => ⟨true, [], []⟩, SummaryFile.missing, true⟩ (by decide)

/-- Witness for C9: one rejected row appended to a one-row batch leaves
every counter unchanged. -/
theorem rejected_rows_not_counted_witness :
    (processExcelFile "batch".data
        ([⟨"http://a.com".data, none⟩] ++ [⟨"example.com".data, none⟩])
        ⟨fun _ => ⟨true, [PollResp.ok TaskStatus.completed], [DlResp.ok 9]⟩,
          SummaryFile.missing, true⟩ 0).totalTasks
      = (processExcelFile "batch".data [⟨"http://a.com".data, none⟩]
        ⟨fun _ => ⟨true, [PollResp.ok TaskStatus.completed], [DlResp.ok 9]⟩,
          SummaryFile.missing, true⟩ 0).totalTasks
    ∧ (processExcelFile "batch".data
        ([⟨"http://a.com".data, none⟩] ++ [⟨"example.com".data, none⟩])
        ⟨fun _ => ⟨true, [PollResp.ok TaskStatus.completed], [DlResp.ok 9]⟩,
          SummaryFile.missing, true⟩ 0).completedTasks
      = (processExcelFile "batch".data [⟨"http://a.com".data, none⟩]
        ⟨fun _ => ⟨true, [PollResp.ok TaskStatus.completed], [DlResp.ok 9]⟩,
          SummaryFile.missing, true⟩ 0).completedTasks
    ∧ (processExcelFile "batch".data
        ([⟨"http://a.com".data, none⟩] ++ [⟨"example.com".data, none⟩])
        ⟨fun _ => ⟨true, [PollResp.ok TaskStatus.completed], [DlResp.ok 9]⟩,
          SummaryFile.missing, true⟩ 0).failedTasks
      = (processExcelFile "batch".data [⟨"http://a.com".data, none⟩]
        ⟨fun _ => ⟨true, [PollResp.ok TaskStatus.completed], [DlResp.ok 9]⟩,
          SummaryFile.missing, true⟩ 0).failedTasks
    ∧ (processExcelFile "batch".data
        ([⟨"http://a.com".data, none⟩] ++ [⟨"example.com".data, none⟩])
        ⟨fun _ => ⟨true, [PollResp.ok TaskStatus.completed], [DlResp.ok 9]⟩,
          SummaryFile.missing, true⟩ 0).totalTasks
      = (processExcelFile "batch".data
        ([⟨"http://a.com".data, none⟩] ++ [⟨"example.com".data, none⟩])
        ⟨fun _ => ⟨true, [PollResp.ok TaskStatus.completed], [DlResp.ok 9]⟩,
          SummaryFile.missing, true⟩ 0).validRows.length
    ∧ (processExcelFile "batch".data
        ([⟨"http://a.com".data, none⟩] ++ [⟨"example.com".data, none⟩])
        ⟨fun _ => ⟨true, [PollResp.ok TaskStatus.completed], [DlResp.ok 9]⟩,
          SummaryFile.missing, true⟩ 0).valFailures.length
      = (processExcelFile "batch".data [⟨"http://a.com".data, none⟩]
        ⟨fun _ => ⟨true, [PollResp.ok TaskStatus.completed], [DlResp.ok 9]⟩,
          SummaryFile.missing, true⟩ 0).valFailures.length + 1 :=
  rejected_rows_not_counted "batch".data 0 [⟨"http://a.com".data, none⟩]
    [⟨"example.com".data, none⟩]
    ⟨fun _ => ⟨true, [PollResp.ok TaskStatus.completed], [DlResp.ok 9]⟩,
      SummaryFile.missing, true⟩ (by decide)

/-! Helper lemmas about the summary sort. -/

theorem sortByTsDesc_perm (l : List FailRec) :
    (sortByTsDesc l).Perm l :=
  List.mergeSort_perm l tsGe

theorem sortByTsDesc_length (l : List FailRec) :
    (sortByTsDesc l).length = l.length :=
  (List.mergeSort_perm l tsGe).length_eq

theorem sortedDesc_sortByTsDesc (l : List FailRec) :
    sortedDesc (sortByTsDesc l) := by
  have hs := @List.sorted_mergeSort _ tsGe
    (fun a b c hab hbc => by
      simp only [tsGe, decide_eq_true_eq] at *; omega)
    (fun a b => by
      simp only [tsGe, Bool.or_eq_true, decide_eq_true_eq]
      omega) l
  exact hs.imp (fun h => by simpa [tsGe] using h)

/-- C2 counterexample: on a missing summary file and one failure record,
append_to_global_summary performs a single direct write to the summary
path — there is no write-to-temp-then-rename, so the rewrite is not
atomic in the sense the claim states. -/
theorem summary_write_not_atomic :
    (appendToGlobalSummary summaryPath SummaryFile.missing [rec0]).2.2
      = [FsOp.writeFile summaryPath]
    ∧ ¬ atomicReplace summaryPath
        (appendToGlobalSummary summaryPath SummaryFile.missing [rec0]).2.2 := by
  refine ⟨rfl, ?_⟩
  rintro ⟨tmp, hne, heq⟩
  have hx : ([FsOp.writeFile summaryPath] : List FsOp)
      = [FsOp.writeFile tmp, FsOp.rename tmp summaryPath] := heq
  simp at hx

/-- C2 (amended): append_to_global_summary, for any existing file state
and any non-empty failure list, succeeds (a missing or unparseable file
is treated as an empty table rather than an error), produces the
concatenation of the existing rows with the run's records sorted
descending by timestamp, and rewrites the summary path with a single
direct in-place write — not atomically via write-to-temp-then-rename. -/
theorem append_summary_merge (file : SummaryFile) (failures : List FailRec)
    (h : failures ≠ []) :
    (appendToGlobalSummary summaryPath file failures).1 = true
    ∧ ((appendToGlobalSummary summaryPath file failures).2.1).rows.Perm
        (file.rows ++ failures)
    ∧ sortedDesc ((appendToGlobalSummary summaryPath file failures).2.1).rows
    ∧ (appendToGlobalSummary summaryPath file failures).2.2
        = [FsOp.writeFile summaryPath] := by
  have hne : failures.isEmpty = false := by
    cases failures with
    | nil => exact absurd rfl h
    | cons a as => rfl
  simp only [appendToGlobalSummary, hne]
  rw [if_neg (by simp)]
  exact ⟨rfl, sortByTsDesc_perm _, sortedDesc_sortByTsDesc _, rfl⟩

/-- Witness for C2 on an unparseable existing file and one record. -/
theorem append_summary_merge_witness :
    (appendToGlobalSummary summaryPath SummaryFile.unparseable [recB]).1 = true
    ∧ ((appendToGlobalSummary summaryPath SummaryFile.unparseable [recB]).2.1).rows.Perm
        (SummaryFile.unparseable.rows ++ [recB])
    ∧ sortedDesc
        ((appendToGlobalSummary summaryPath SummaryFile.unparseable [recB]).2.1).rows
    ∧ (appendToGlobalSummary summaryPath SummaryFile.unparseable [recB]).2.2
        = [FsOp.writeFile summaryPath] :=
  append_summary_merge SummaryFile.unparseable [recB] (by decide)

/-- C7 counterexample: for a record set of size `n = 0` the merge is
skipped, so two appends leave an existing table that is not sorted
descending untouched — the size equation holds but the sortedness part of
the claim fails at this input. -/
theorem double_append_nil_unsorted :
    ((appendToGlobalSummary summaryPath
        (appendToGlobalSummary summaryPath
          (SummaryFile.table [rec0, recB]) []).2.1 []).2.1).rows.length
      = 2 + 2 * 0
    ∧ ¬ sortedDesc ((appendToGlobalSummary summaryPath
        (appendToGlobalSummary summaryPath
          (SummaryFile.table [rec0, recB]) []).2.1 []).2.1).rows := by
  constructor
  · rfl
  · intro hs
    have hle := (List.pairwise_cons.mp hs).1 recB (by simp)
    simp [rec0, recB] at hle

/-- C7 (amended): appending the same non-empty failure record set (of
size `n`, with any existing table of size `S`) twice yields a table of
size `S + 2 n` — no deduplication — sorted descending by timestamp. -/
theorem double_append_size_sorted (file : SummaryFile)
    (failures : List FailRec) (h : failures ≠ []) :
    ((appendToGlobalSummary summaryPath
        (appendToGlobalSummary summaryPath file failures).2.1
        failures).2.1).rows.length
      = file.rows.length + 2 * failures.length
    ∧ sortedDesc ((appendToGlobalSummary summaryPath
        (appendToGlobalSummary summaryPath file failures).2.1
        failures).2.1).rows := by
  have hne : failures.isEmpty = false := by
    cases failures with
    | nil => exact absurd rfl h
    | cons a as => rfl
  simp only [appendToGlobalSummary, hne]
  rw [if_neg (by simp), if_neg (by simp)]
  constructor
  · show (sortByTsDesc ((sortByTsDesc (file.rows ++ failures)) ++ failures)).length
      = file.rows.length + 2 * failures.length
    rw [sortByTsDesc_length, List.length_append, sortByTsDesc_length,
      List.length_append]
    omega
  · exact sortedDesc_sortByTsDesc _

/-- Witness for C7 with a one-row table and a one-record set. -/
theorem double_append_size_sorted_witness :
    ((appendToGlobalSummary summaryPath
        (appendToGlobalSummary summaryPath (SummaryFile.table [rec0]) [recB]).2.1
        [recB]).2.1).rows.length = 1 + 2 * 1
    ∧ sortedDesc ((appendToGlobalSummary summaryPath
        (appendToGlobalSummary summaryPath (SummaryFile.table [rec0]) [recB]).2.1
        [recB]).2.1).rows :=
  double_append_size_sorted (SummaryFile.table [rec0]) [recB] (by decide)

end Crawler
